import Mathlib

/-!
Shallow embedding of the credential-verification engine of
`examples/fastapi_auth_demo/app.py`: trust-store constants, the per-scheme
dependency functions (`require_basic_auth`, `require_bearer_token`,
`require_api_key_header`, `require_session_cookie`, `require_oauth2_token`,
`require_bearer_or_api_key`), the token/session issuance endpoints, and the
business handlers they guard.  Framework pieces that live outside the
repository (the FastAPI `HTTPBasic`/`HTTPBearer`/`APIKeyHeader`/`APIKeyCookie`/
`OAuth2PasswordBearer` extractors and CPython's `secrets.compare_digest`) are
modelled from the specification, as marked on each definition.

Python `raise HTTPException(...)` becomes an `Except HTTPException` return;
machine strings are Lean `String`s (the credentials in play are ASCII).
-/

/-- Trust-store constant `DEMO_BASIC_USERNAME = "admin"` (app.py line 23). -/
def DEMO_BASIC_USERNAME : String := "admin"

/-- Trust-store constant `DEMO_BASIC_PASSWORD = "admin-password"` (app.py line 24). -/
def DEMO_BASIC_PASSWORD : String := "admin-password"

/-- Trust-store constant `DEMO_BEARER_TOKEN = "demo-bearer-token"` (app.py line 25). -/
def DEMO_BEARER_TOKEN : String := "demo-bearer-token"

/-- Trust-store constant `DEMO_HEADER_API_KEY = "demo-header-api-key"` (app.py line 26). -/
def DEMO_HEADER_API_KEY : String := "demo-header-api-key"

/-- Trust-store constant `DEMO_SESSION_TOKEN = "demo-session-token"` (app.py line 27). -/
def DEMO_SESSION_TOKEN : String := "demo-session-token"

/-- Trust-store constant `DEMO_OAUTH_USERNAME = "oauth-user"` (app.py line 28). -/
def DEMO_OAUTH_USERNAME : String := "oauth-user"

/-- Trust-store constant `DEMO_OAUTH_PASSWORD = "oauth-password"` (app.py line 29). -/
def DEMO_OAUTH_PASSWORD : String := "oauth-password"

/-- Trust-store constant `DEMO_OAUTH_TOKEN = "demo-oauth-token"` (app.py line 30). -/
def DEMO_OAUTH_TOKEN : String := "demo-oauth-token"

/-- FastAPI's `HTTPBasicCredentials`: the username/password pair decoded from a
`Basic` Authorization header. -/
structure HTTPBasicCredentials where
  username : String
  password : String
  deriving DecidableEq, Repr

/-- FastAPI's `HTTPAuthorizationCredentials`: the scheme token and the
credential part of an Authorization header. -/
structure HTTPAuthorizationCredentials where
  scheme : String
  credentials : String
  deriving DecidableEq, Repr

/-- The observable payload of a raised `HTTPException`: status code, detail
string and response headers (the optional WWW-Authenticate challenge). -/
structure HTTPException where
  statusCode : Nat
  detail : String
  headers : List (String × String)
  deriving DecidableEq, Repr

/-- Modelled from the spec: the accumulator loop of CPython's `_tscmp`
(the core of `secrets.compare_digest`).  It walks the whole second byte list,
or-ing the xor of each byte pair into an accumulator, and also returns how
many byte comparisons were executed — the loop never exits early, so the
count depends only on the second list. -/
def tscmpAux : List Nat → List Nat → Nat × Nat
  | _, [] => (0, 0)
  | left, b :: bs =>
    let r := tscmpAux left.tail bs
    (((left.headD 0) ^^^ b) ||| r.1, r.2 + 1)

/-- Modelled from the spec: `secrets.compare_digest` on (ASCII) strings.
If the lengths differ the loop runs over the expected value compared with
itself and the verdict is forced to false by a preset accumulator bit;
otherwise the accumulator is zero exactly when every byte pair is equal. -/
def compare_digest (a b : String) : Bool :=
  let la := a.data.map Char.toNat
  let lb := b.data.map Char.toNat
  let left := if la.length = lb.length then la else lb
  let init := if la.length = lb.length then 0 else 1
  (init ||| (tscmpAux left lb).1) == 0

/-- Number of byte comparisons executed by `compare_digest a b`
(the iteration count of the `tscmpAux` loop on the same inputs). -/
def compare_digest_steps (a b : String) : Nat :=
  let la := a.data.map Char.toNat
  let lb := b.data.map Char.toNat
  let left := if la.length = lb.length then la else lb
  (tscmpAux left lb).2

/-- Modelled from the spec: the cost of a native short-circuiting string
equality comparison (Python `==` / `!=`), which stops at the first
character where the two strings differ. -/
def shortCircuitEqSteps : List Char → List Char → Nat
  | [], _ => 0
  | _ :: _, [] => 0
  | a :: as, b :: bs => if a = b then shortCircuitEqSteps as bs + 1 else 1

/-- Cost of comparing two strings with native Python string equality. -/
def py_str_eq_steps (a b : String) : Nat := shortCircuitEqSteps a.data b.data

/-- Model of Python `str.lower()` restricted to the ASCII scheme tokens the
app compares (maps each character through `Char.toLower`). -/
def str_lower (s : String) : String := ⟨s.data.map Char.toLower⟩

/-- `require_basic_auth` (app.py lines 154-173): missing credentials raise a
401 with a Basic challenge; otherwise username and password are both compared
against the trust store with `compare_digest` before the verdict, and a
failed verdict raises a 401 with a Basic challenge. -/
def require_basic_auth (credentials : Option HTTPBasicCredentials) :
    Except HTTPException HTTPBasicCredentials :=
  match credentials with
  | none =>
    .error ⟨401, "Missing basic authentication credentials.",
      [("WWW-Authenticate", "Basic")]⟩
  | some c =>
    let is_valid_user := compare_digest c.username DEMO_BASIC_USERNAME
    let is_valid_password := compare_digest c.password DEMO_BASIC_PASSWORD
    if !(is_valid_user && is_valid_password) then
      .error ⟨401, "Invalid basic authentication credentials.",
        [("WWW-Authenticate", "Basic")]⟩
    else
      .ok c

/-- Number of `compare_digest` byte comparisons `require_basic_auth` executes:
both the username comparison and the password comparison run unconditionally
(both are bound before the verdict is computed, and Python evaluates them
eagerly), so the cost is always the sum of the two. -/
def require_basic_auth_steps (credentials : Option HTTPBasicCredentials) : Nat :=
  match credentials with
  | none => 0
  | some c =>
    compare_digest_steps c.username DEMO_BASIC_USERNAME +
      compare_digest_steps c.password DEMO_BASIC_PASSWORD

/-- `require_bearer_token` (app.py lines 176-193): absent credentials or a
scheme token other than case-insensitive "bearer" raise 401 "Missing bearer
token." with a Bearer challenge; a wrong token value raises 401 "Invalid
bearer token." with a Bearer challenge. -/
def require_bearer_token (credentials : Option HTTPAuthorizationCredentials) :
    Except HTTPException String :=
  match credentials with
  | none =>
    .error ⟨401, "Missing bearer token.", [("WWW-Authenticate", "Bearer")]⟩
  | some c =>
    if str_lower c.scheme != "bearer" then
      .error ⟨401, "Missing bearer token.", [("WWW-Authenticate", "Bearer")]⟩
    else if !compare_digest c.credentials DEMO_BEARER_TOKEN then
      .error ⟨401, "Invalid bearer token.", [("WWW-Authenticate", "Bearer")]⟩
    else
      .ok c.credentials

/-- `require_api_key_header` (app.py lines 196-211): missing or invalid
x-api-key values raise a 403 with no challenge header. -/
def require_api_key_header (x_api_key : Option String) :
    Except HTTPException String :=
  match x_api_key with
  | none => .error ⟨403, "Missing x-api-key header.", []⟩
  | some k =>
    if !compare_digest k DEMO_HEADER_API_KEY then
      .error ⟨403, "Invalid x-api-key header.", []⟩
    else
      .ok k

/-- `require_session_cookie` (app.py lines 214-229): missing or invalid
session_token cookies raise a 403 with no challenge header. -/
def require_session_cookie (session_token : Option String) :
    Except HTTPException String :=
  match session_token with
  | none => .error ⟨403, "Missing session_token cookie.", []⟩
  | some t =>
    if !compare_digest t DEMO_SESSION_TOKEN then
      .error ⟨403, "Invalid session_token cookie.", []⟩
    else
      .ok t

/-- `require_oauth2_token` (app.py lines 232-240): a token that fails the
`compare_digest` check against the issued value raises a 401 with a Bearer
challenge. -/
def require_oauth2_token (token : String) : Except HTTPException String :=
  if !compare_digest token DEMO_OAUTH_TOKEN then
    .error ⟨401, "Invalid OAuth2 access token.", [("WWW-Authenticate", "Bearer")]⟩
  else
    .ok token

/-- The api-key half of `require_bearer_or_api_key` (app.py lines 251-258):
Python's `if x_api_key and compare_digest(...)` — an empty header value is
falsy, so only a non-empty matching key succeeds; otherwise the combinator
raises its single aggregated 401 failure with a Bearer challenge. -/
def hybridApiKeyStep (x_api_key : Option String) : Except HTTPException String :=
  match x_api_key with
  | some k =>
    if k != "" && compare_digest k DEMO_HEADER_API_KEY then
      .ok "api_key_header"
    else
      .error ⟨401, "Provide a valid bearer token or x-api-key header.",
        [("WWW-Authenticate", "Bearer")]⟩
  | none =>
    .error ⟨401, "Provide a valid bearer token or x-api-key header.",
      [("WWW-Authenticate", "Bearer")]⟩

/-- `require_bearer_or_api_key` (app.py lines 243-258): try the bearer scheme
first (present, case-insensitive "bearer" scheme token, matching token value
returns "bearer"); on any bearer failure fall through to the x-api-key check;
if that also fails raise one aggregated 401 with a Bearer challenge. -/
def require_bearer_or_api_key (credentials : Option HTTPAuthorizationCredentials)
    (x_api_key : Option String) : Except HTTPException String :=
  match credentials with
  | some c =>
    if str_lower c.scheme == "bearer" && compare_digest c.credentials DEMO_BEARER_TOKEN then
      .ok "bearer"
    else
      hybridApiKeyStep x_api_key
  | none => hybridApiKeyStep x_api_key

/-- An inbound request's credential surface as the extractors see it:
the raw Authorization header, the x-api-key header and the session_token
cookie. -/
structure Request where
  authorization : Option String
  xApiKey : Option String
  sessionTokenCookie : Option String
  deriving DecidableEq, Repr

/-- Python's `str.partition(sep)` for a one-character separator, on the
character list: returns the parts before and after the first occurrence, or
none when the separator does not occur. -/
def partitionChar (sep : Char) : List Char → Option (List Char × List Char)
  | [] => none
  | c :: rest =>
    if c = sep then some ([], rest)
    else (partitionChar sep rest).map fun q => (c :: q.1, q.2)

/-- Modelled from the spec: FastAPI's `get_authorization_scheme_param` — split
the Authorization header at the first space into a scheme token and a
parameter; a missing header or missing separator yields empty parts. -/
def get_authorization_scheme_param (authorization : Option String) :
    String × String :=
  match authorization with
  | none => ("", "")
  | some h =>
    match partitionChar ' ' h.data with
    | none => (h, "")
    | some q => (⟨q.1⟩, ⟨q.2⟩)

/-- Modelled from the spec: the Bearer CredentialExtractor (FastAPI
`HTTPBearer` with `auto_error=False`) — parses `Authorization`, requires a
non-empty case-insensitive "bearer" scheme token and a non-empty credential
part; anything else is absent. -/
def http_bearer_extract (req : Request) : Option HTTPAuthorizationCredentials :=
  let sp := get_authorization_scheme_param req.authorization
  if req.authorization.getD "" == "" || sp.1 == "" || sp.2 == "" then
    none
  else if str_lower sp.1 != "bearer" then
    none
  else
    some ⟨sp.1, sp.2⟩

/-- Modelled from the spec: the Basic CredentialExtractor (FastAPI `HTTPBasic`
with `auto_error=False` plus the spec's §4.1 contract) — parses
`Authorization`, requires a case-insensitive "basic" scheme token, decodes the
parameter and splits it at the first colon; a missing header, wrong scheme,
malformed (undecodable) encoding or missing colon is treated as absent.  The
base64 decoder itself lives in the excluded framework layer, so it is kept
abstract as the `decode` argument. -/
def http_basic_extract (decode : String → Option String) (req : Request) :
    Option HTTPBasicCredentials :=
  let sp := get_authorization_scheme_param req.authorization
  if req.authorization.getD "" == "" || str_lower sp.1 != "basic" then
    none
  else
    match decode sp.2 with
    | none => none
    | some data =>
      match partitionChar ':' data.data with
      | none => none
      | some q => some ⟨⟨q.1⟩, ⟨q.2⟩⟩

/-- Modelled from the spec: the ApiKeyHeader CredentialExtractor (FastAPI
`APIKeyHeader` with `auto_error=False`) — reads the x-api-key header;
empty or missing is absent. -/
def api_key_header_extract (req : Request) : Option String :=
  match req.xApiKey with
  | none => none
  | some k => if k == "" then none else some k

/-- Modelled from the spec: the ApiKeyCookie CredentialExtractor (FastAPI
`APIKeyCookie` with `auto_error=False`) — reads the session_token cookie;
empty or missing is absent. -/
def api_key_cookie_extract (req : Request) : Option String :=
  match req.sessionTokenCookie with
  | none => none
  | some k => if k == "" then none else some k

/-- Modelled from the spec: the OAuth2Password CredentialExtractor (FastAPI
`OAuth2PasswordBearer`, whose default `auto_error=True` raises the framework's
401 "Not authenticated" with a Bearer challenge when the header is missing or
not bearer-schemed); extraction mechanics are identical to Bearer's. -/
def oauth2_password_extract (req : Request) : Except HTTPException String :=
  let sp := get_authorization_scheme_param req.authorization
  if req.authorization.getD "" == "" || str_lower sp.1 != "bearer" then
    .error ⟨401, "Not authenticated", [("WWW-Authenticate", "Bearer")]⟩
  else
    .ok sp.2

/-- The Basic SchemeStrategy: extractor composed with `require_basic_auth`. -/
def basic_strategy (decode : String → Option String) (req : Request) :
    Except HTTPException HTTPBasicCredentials :=
  require_basic_auth (http_basic_extract decode req)

/-- The Bearer SchemeStrategy: extractor composed with `require_bearer_token`. -/
def bearer_strategy (req : Request) : Except HTTPException String :=
  require_bearer_token (http_bearer_extract req)

/-- The ApiKeyHeader SchemeStrategy: extractor composed with
`require_api_key_header`. -/
def api_key_header_strategy (req : Request) : Except HTTPException String :=
  require_api_key_header (api_key_header_extract req)

/-- The ApiKeyCookie SchemeStrategy: extractor composed with
`require_session_cookie`. -/
def session_cookie_strategy (req : Request) : Except HTTPException String :=
  require_session_cookie (api_key_cookie_extract req)

/-- The OAuth2Password SchemeStrategy: extractor composed with
`require_oauth2_token`. -/
def oauth2_password_strategy (req : Request) : Except HTTPException String :=
  (oauth2_password_extract req).bind require_oauth2_token

/-- The hybrid combinator endpoint dependency as wired on `/hybrid/alerts`:
`require_bearer_or_api_key` fed by the Bearer and ApiKeyHeader extractors. -/
def hybrid_strategy (req : Request) : Except HTTPException String :=
  require_bearer_or_api_key (http_bearer_extract req) (api_key_header_extract req)

/-- FastAPI's `OAuth2PasswordRequestForm`: the form fields of the token
endpoint. -/
structure OAuth2PasswordRequestForm where
  username : String
  password : String
  deriving DecidableEq, Repr

/-- Response model `TokenOut` (app.py lines 87-89); `token_type` defaults to
"bearer". -/
structure TokenOut where
  access_token : String
  token_type : String
  deriving DecidableEq, Repr

/-- `oauth_token` endpoint (app.py lines 359-370): the username and password
form fields are compared against the OAuth trust entry with native Python
`!=` joined by a short-circuiting `or`; a mismatch raises 401 with no special
header, a match returns the fixed issued token with token_type "bearer". -/
def oauth_token (form_data : OAuth2PasswordRequestForm) :
    Except HTTPException TokenOut :=
  if form_data.username ≠ DEMO_OAUTH_USERNAME ∨ form_data.password ≠ DEMO_OAUTH_PASSWORD then
    .error ⟨401, "Invalid OAuth username/password.", []⟩
  else
    .ok ⟨DEMO_OAUTH_TOKEN, "bearer"⟩

/-- Number of character comparisons `oauth_token` executes: the username is
always compared with native short-circuiting equality; the password is
compared only when the username matched, because Python's `or` short-circuits
(app.py lines 361-364). -/
def oauth_token_steps (form_data : OAuth2PasswordRequestForm) : Nat :=
  if form_data.username ≠ DEMO_OAUTH_USERNAME then
    py_str_eq_steps form_data.username DEMO_OAUTH_USERNAME
  else
    py_str_eq_steps form_data.username DEMO_OAUTH_USERNAME +
      py_str_eq_steps form_data.password DEMO_OAUTH_PASSWORD

/-- Request model `SessionLoginIn` (app.py lines 78-80). -/
structure SessionLoginIn where
  username : String
  password : String
  deriving DecidableEq, Repr

/-- Response model `SessionLoginOut` (app.py lines 83-84). -/
structure SessionLoginOut where
  message : String
  deriving DecidableEq, Repr

/-- The cookie issued by `response.set_cookie` in `session_login`
(app.py lines 333-338). -/
structure SetCookie where
  key : String
  value : String
  httponly : Bool
  samesite : String
  deriving DecidableEq, Repr

/-- `session_login` endpoint (app.py lines 328-339): the payload is compared
against the Basic trust entry (`DEMO_BASIC_USERNAME`/`DEMO_BASIC_PASSWORD`)
with native `!=`; a mismatch raises 401 "Invalid credentials." and sets no
cookie, a match sets the session_token cookie to the fixed
`DEMO_SESSION_TOKEN` (HTTP-only, SameSite lax) and returns the message. -/
def session_login (payload : SessionLoginIn) :
    Except HTTPException (SessionLoginOut × SetCookie) :=
  if payload.username ≠ DEMO_BASIC_USERNAME ∨ payload.password ≠ DEMO_BASIC_PASSWORD then
    .error ⟨401, "Invalid credentials.", []⟩
  else
    .ok (⟨"Session cookie issued."⟩, ⟨"session_token", DEMO_SESSION_TOKEN, true, "lax"⟩)

/-- `TransportType` literal (app.py line 20). -/
inductive TransportType where
  | bus
  | tram
  | metro
  deriving DecidableEq, Repr

/-- `Severity` literal (app.py line 21). -/
inductive Severity where
  | low
  | medium
  | high
  deriving DecidableEq, Repr

/-- A timestamp value; stands in for Python `datetime` (the app only ever
constructs and returns these, never computes with them). -/
structure DateTime where
  year : Nat
  month : Nat
  day : Nat
  hour : Nat
  minute : Nat
  deriving DecidableEq, Repr

/-- Response model `RouteOut` (app.py lines 52-57). -/
structure RouteOut where
  route_id : String
  name : String
  city : String
  transport_type : TransportType
  active_stops : Nat
  deriving DecidableEq, Repr

/-- Response model `RouteSearchOut` (app.py lines 60-62). -/
structure RouteSearchOut where
  total : Nat
  items : List RouteOut
  deriving DecidableEq, Repr

/-- Request model `CreateDepotIn` (app.py lines 65-68). -/
structure CreateDepotIn where
  name : String
  city : String
  max_vehicles : Nat
  deriving DecidableEq, Repr

/-- Response model `DepotOut` (app.py lines 71-75). -/
structure DepotOut where
  depot_id : String
  name : String
  city : String
  max_vehicles : Nat
  deriving DecidableEq, Repr

/-- Response model `ProfileOut` (app.py lines 92-94). -/
structure ProfileOut where
  subject : String
  auth_method : String
  deriving DecidableEq, Repr

/-- Response model `IncidentOut` (app.py lines 97-102); `status` is the
literal "open" or "mitigated". -/
structure IncidentOut where
  incident_id : String
  route_id : String
  severity : Severity
  reported_at : DateTime
  status : String
  deriving DecidableEq, Repr

/-- Request model `DispatchIn` (app.py lines 105-109). -/
structure DispatchIn where
  vehicle_id : String
  route_id : String
  departs_at : DateTime
  driver_notes : Option String
  deriving DecidableEq, Repr

/-- Response model `DispatchOut` (app.py lines 112-117); `status` is the
literal "scheduled". -/
structure DispatchOut where
  dispatch_id : String
  vehicle_id : String
  route_id : String
  departs_at : DateTime
  status : String
  deriving DecidableEq, Repr

/-- Response model `AlertOut` (app.py lines 120-123). -/
structure AlertOut where
  id : String
  level : Severity
  message : String
  deriving DecidableEq, Repr

/-- Response model `HealthOut` (app.py lines 47-49). -/
structure HealthOut where
  status : String
  time : DateTime
  deriving DecidableEq, Repr

/-- The module-level `route_store` dictionary with its two startup entries
(app.py lines 136-151), as an association list. -/
def route_store : List (String × RouteOut) :=
  [("route-1", ⟨"route-1", "North Loop", "Helsinki", .tram, 18⟩),
   ("route-2", ⟨"route-2", "Airport Express", "Helsinki", .bus, 7⟩)]

/-- `health` handler (app.py lines 261-263); the current time is supplied by
the runtime, here a parameter. -/
def health (now : DateTime) : HealthOut := ⟨"ok", now⟩

/-- `list_routes` handler (app.py lines 266-282): the handler reads the
module-level route store (passed explicitly here), filters by
case-insensitive city and by transport type, and pages the result. -/
def list_routes (store : List (String × RouteOut)) (city : Option String)
    (transport_type : Option TransportType) (limit offset : Nat) :
    RouteSearchOut :=
  let routes := store.map fun kv => kv.2
  let routes := match city with
    | none => routes
    | some c => routes.filter fun r => str_lower r.city == str_lower c
  let routes := match transport_type with
    | none => routes
    | some t => routes.filter fun r => r.transport_type == t
  let paged := (routes.drop offset).take limit
  ⟨routes.length, paged⟩

/-- `get_route` handler (app.py lines 285-290): looks the id up in the route
store; a miss raises 404. -/
def get_route (store : List (String × RouteOut)) (route_id : String) :
    Except HTTPException RouteOut :=
  match (store.find? fun kv => kv.1 == route_id).map (fun kv => kv.2) with
  | none => .error ⟨404, "Route not found.", []⟩
  | some r => .ok r

/-- `create_depot` handler (app.py lines 299-308): receives the payload and
the verified credentials from `require_basic_auth` (bound to the unused
`_credentials` parameter) and returns a freshly built depot with the fixed id
"depot-1", derived only from the payload. -/
def create_depot (payload : CreateDepotIn)
    (_credentials : HTTPBasicCredentials) : DepotOut :=
  ⟨"depot-1", payload.name, payload.city, payload.max_vehicles⟩

/-- `bearer_profile` handler (app.py lines 311-313): receives the verified
raw token (unused) and returns a fixed profile. -/
def bearer_profile (_token : String) : ProfileOut :=
  ⟨"operator-41", "bearer"⟩

/-- `header_key_metrics` handler (app.py lines 316-325): receives the verified
api key (unused) and reports the route-store size. -/
def header_key_metrics (_key : String) (store : List (String × RouteOut)) :
    List (String × Nat) :=
  [("active_routes", store.length), ("active_vehicles", 112)]

/-- `cookie_incidents` handler (app.py lines 342-356): receives the verified
cookie (unused) and returns a fixed incident list. -/
def cookie_incidents (_cookie : String) : List IncidentOut :=
  [⟨"inc-1", "route-1", .medium, ⟨2026, 3, 1, 7, 30⟩, "open"⟩]

/-- `oauth_profile` handler (app.py lines 373-375): receives the verified
raw token (unused) and returns a fixed profile. -/
def oauth_profile (_token : String) : ProfileOut :=
  ⟨"dispatcher-7", "oauth2-password"⟩

/-- `create_dispatch` handler (app.py lines 384-394): receives the payload and
the verified raw token (unused) and returns a freshly built dispatch with the
fixed id "dispatch-1", derived only from the payload. -/
def create_dispatch (payload : DispatchIn) (_token : String) : DispatchOut :=
  ⟨"dispatch-1", payload.vehicle_id, payload.route_id, payload.departs_at,
    "scheduled"⟩

/-- `hybrid_alert` handler (app.py lines 397-403): receives the winning auth
method string from `require_bearer_or_api_key` and echoes it in the alert
message. -/
def hybrid_alert (auth_method : String) : AlertOut :=
  ⟨"alert-1", .low, "Hybrid-authenticated via " ++ auth_method ++ "."⟩

/-- One inbound operation against the app, carrying the dependency inputs the
framework would inject. -/
inductive Op where
  | health (now : DateTime)
  | listRoutes (city : Option String) (transport_type : Option TransportType)
      (limit offset : Nat)
  | getRoute (route_id : String)
  | createDepot (payload : CreateDepotIn)
      (credentials : Option HTTPBasicCredentials)
  | bearerProfile (credentials : Option HTTPAuthorizationCredentials)
  | headerKeyMetrics (x_api_key : Option String)
  | sessionLogin (payload : SessionLoginIn)
  | cookieIncidents (cookie : Option String)
  | oauthToken (form_data : OAuth2PasswordRequestForm)
  | oauthProfile (token : String)
  | createDispatch (payload : DispatchIn) (token : String)
  | hybridAlert (credentials : Option HTTPAuthorizationCredentials)
      (x_api_key : Option String)
  deriving Repr

/-- The response an operation produces. -/
inductive OpResult where
  | healthOut (r : HealthOut)
  | routes (r : RouteSearchOut)
  | route (r : RouteOut)
  | depot (r : DepotOut)
  | profile (r : ProfileOut)
  | metrics (r : List (String × Nat))
  | login (r : SessionLoginOut × SetCookie)
  | incidents (r : List IncidentOut)
  | token (r : TokenOut)
  | dispatch (r : DispatchOut)
  | alert (r : AlertOut)
  | failure (e : HTTPException)
  deriving Repr

/-- Execute one operation against the module-level route store and return the
(possibly updated) store together with the response.  No handler in app.py
assigns to `route_store` or to any other module-level name, so every branch
returns the store unchanged. -/
def run_op (store : List (String × RouteOut)) : Op →
    List (String × RouteOut) × OpResult
  | .health now => (store, .healthOut (health now))
  | .listRoutes city t limit offset =>
    (store, .routes (list_routes store city t limit offset))
  | .getRoute rid =>
    (store, match get_route store rid with
      | .ok r => .route r
      | .error e => .failure e)
  | .createDepot payload credentials =>
    (store, match require_basic_auth credentials with
      | .ok c => .depot (create_depot payload c)
      | .error e => .failure e)
  | .bearerProfile credentials =>
    (store, match require_bearer_token credentials with
      | .ok t => .profile (bearer_profile t)
      | .error e => .failure e)
  | .headerKeyMetrics x_api_key =>
    (store, match require_api_key_header x_api_key with
      | .ok k => .metrics (header_key_metrics k store)
      | .error e => .failure e)
  | .sessionLogin payload =>
    (store, match session_login payload with
      | .ok r => .login r
      | .error e => .failure e)
  | .cookieIncidents cookie =>
    (store, match require_session_cookie cookie with
      | .ok c => .incidents (cookie_incidents c)
      | .error e => .failure e)
  | .oauthToken form_data =>
    (store, match oauth_token form_data with
      | .ok t => .token t
      | .error e => .failure e)
  | .oauthProfile tok =>
    (store, match require_oauth2_token tok with
      | .ok t => .profile (oauth_profile t)
      | .error e => .failure e)
  | .createDispatch payload tok =>
    (store, match require_oauth2_token tok with
      | .ok t => .dispatch (create_dispatch payload t)
      | .error e => .failure e)
  | .hybridAlert credentials x_api_key =>
    (store, match require_bearer_or_api_key credentials x_api_key with
      | .ok m => .alert (hybrid_alert m)
      | .error e => .failure e)

/-- Run a sequence of operations, threading the route store through. -/
def run_ops (store : List (String × RouteOut)) (ops : List Op) :
    List (String × RouteOut) :=
  ops.foldl (fun s op => (run_op s op).1) store

/-- Whether an `Except` result is a success. -/
def exceptIsOk {ε α : Type} : Except ε α → Bool
  | .ok _ => true
  | .error _ => false

/-! Helper lemmas about the constant-time comparison primitive. -/

theorem nat_or_eq_zero (a b : Nat) : a ||| b = 0 ↔ a = 0 ∧ b = 0 := by
  constructor
  · intro h
    constructor
    · exact Nat.zero_of_testBit_eq_false fun i => by
        have := congrArg (fun n => Nat.testBit n i) h
        simp [Nat.testBit_or] at this
        exact this.1
    · exact Nat.zero_of_testBit_eq_false fun i => by
        have := congrArg (fun n => Nat.testBit n i) h
        simp [Nat.testBit_or] at this
        exact this.2
  · rintro ⟨rfl, rfl⟩
    rfl

theorem char_toNat_inj {a b : Char} (h : a.toNat = b.toNat) : a = b := by
  apply Char.ext
  apply UInt32.ext
  simpa [Char.toNat, UInt32.toNat] using h

theorem string_data_inj {a b : String} (h : a.data = b.data) : a = b := by
  cases a; cases b; cases h; rfl

theorem string_data_append (a b : String) : (a ++ b).data = a.data ++ b.data := by
  cases a; cases b; rfl

theorem tscmpAux_snd (l m : List Nat) : (tscmpAux l m).2 = m.length := by
  induction m generalizing l with
  | nil => rfl
  | cons b bs ih => simp [tscmpAux, ih]

theorem tscmpAux_fst_eq_zero (l m : List Nat) (h : l.length = m.length) :
    ((tscmpAux l m).1 = 0 ↔ l = m) := by
  induction m generalizing l with
  | nil =>
    cases l with
    | nil => simp [tscmpAux]
    | cons a as => simp at h
  | cons b bs ih =>
    cases l with
    | nil => simp at h
    | cons a as =>
      simp only [List.length_cons, Nat.add_right_cancel_iff] at h
      simp only [tscmpAux, List.tail_cons, List.headD_cons]
      rw [nat_or_eq_zero, Nat.xor_eq_zero, ih as h]
      simp

theorem compare_digest_steps_eq (a b : String) :
    compare_digest_steps a b = b.length := by
  simp only [compare_digest_steps]
  split <;> rw [tscmpAux_snd, List.length_map] <;> rfl

theorem compare_digest_iff (a b : String) : compare_digest a b = true ↔ a = b := by
  simp only [compare_digest]
  by_cases h : (a.data.map Char.toNat).length = (b.data.map Char.toNat).length
  · rw [if_pos h, if_pos h]
    rw [beq_iff_eq, Nat.zero_or, tscmpAux_fst_eq_zero _ _ h]
    constructor
    · intro hm
      exact string_data_inj (List.map_injective_iff.mpr (fun x y => char_toNat_inj) hm)
    · intro hm
      rw [hm]
  · rw [if_neg h, if_neg h]
    constructor
    · intro hb
      rw [beq_iff_eq] at hb
      rcases (nat_or_eq_zero _ _).mp hb with ⟨h1, _⟩
      exact absurd h1 one_ne_zero
    · intro hm
      rw [hm] at h
      exact absurd rfl h

theorem compare_digest_self (a : String) : compare_digest a a = true :=
  (compare_digest_iff a a).mpr rfl

theorem compare_digest_eq_false {a b : String} (h : a ≠ b) :
    compare_digest a b = false := by
  cases hc : compare_digest a b
  · rfl
  · exact absurd ((compare_digest_iff a b).mp hc) h

/-! Helper lemmas about header parsing. -/

theorem string_mk_data (s : String) : (⟨s.data⟩ : String) = s := by
  cases s; rfl

theorem data_append_space (s t : String) :
    (s ++ " " ++ t).data = s.data ++ ' ' :: t.data := by
  rw [string_data_append, string_data_append, List.append_assoc]
  rfl

theorem append_space_ne_empty (s t : String) : s ++ " " ++ t ≠ "" := by
  intro h
  have h2 := congrArg String.data h
  rw [data_append_space] at h2
  exact absurd (List.append_eq_nil.mp h2).2 (by simp)

theorem no_space_of_str_lower {s w : String} (h : str_lower s = w)
    (hw : ' ' ∉ w.data) : ' ' ∉ s.data := by
  intro hs
  have h1 : Char.toLower ' ' ∈ s.data.map Char.toLower :=
    List.mem_map_of_mem Char.toLower hs
  rw [show Char.toLower ' ' = ' ' from rfl] at h1
  have h2 : (str_lower s).data = s.data.map Char.toLower := rfl
  rw [← h2, h] at h1
  exact absurd h1 hw

theorem str_lower_ne_empty {s w : String} (h : str_lower s = w) (hw : w ≠ "") :
    s ≠ "" := by
  intro hrfl
  rw [hrfl] at h
  exact absurd h.symm hw

theorem partitionChar_append (sep : Char) (l m : List Char) (h : sep ∉ l) :
    partitionChar sep (l ++ sep :: m) = some (l, m) := by
  induction l with
  | nil => simp [partitionChar]
  | cons c cs ih =>
    have hc : c ≠ sep := fun hc => h (hc ▸ List.mem_cons_self c cs)
    have hcs : sep ∉ cs := fun hm => h (List.mem_cons_of_mem c hm)
    simp [partitionChar, hc, ih hcs]

theorem get_scheme_param_append (s t : String) (h : ' ' ∉ s.data) :
    get_authorization_scheme_param (some (s ++ " " ++ t)) = (s, t) := by
  simp only [get_authorization_scheme_param, data_append_space,
    partitionChar_append ' ' s.data t.data h]

/-- C3 (counterexample): the claim's own cited source `oauth_token` compares
the presented username and password against the trust-store entries with
native short-circuiting comparison (`!=` joined by `or`), not a constant-time
primitive: two rejected same-length submissions execute different numbers of
character comparisons depending on where the password first mismatches, while
producing the same observable response. -/
theorem oauth_token_comparison_short_circuits :
    oauth_token_steps ⟨"oauth-user", "oauth-passworZ"⟩ ≠
      oauth_token_steps ⟨"oauth-user", "Zauth-password"⟩ ∧
    ("oauth-passworZ" : String).length = ("Zauth-password" : String).length ∧
    oauth_token ⟨"oauth-user", "oauth-passworZ"⟩ =
      .error ⟨401, "Invalid OAuth username/password.", []⟩ ∧
    oauth_token ⟨"oauth-user", "Zauth-password"⟩ =
      .error ⟨401, "Invalid OAuth username/password.", []⟩ :=
  ⟨by decide, by decide, rfl, rfl⟩

/-- C3 (amended): every comparison performed by the per-scheme Verifiers goes
through `compare_digest`, whose byte-comparison count is independent of the
presented credential value (it depends only on the trusted value), and which
is functionally an equality test; for the Basic verifier both the username
and the password comparison run unconditionally, so its total comparison cost
is the same for every presented pair.  (The OAuth2 token-issuance endpoint is
excluded: it uses native short-circuiting comparison.) -/
theorem verifier_comparisons_constant_time :
    (∀ a a2 b : String, compare_digest_steps a b = compare_digest_steps a2 b) ∧
    (∀ a b : String, compare_digest a b = true ↔ a = b) ∧
    (∀ c c2 : HTTPBasicCredentials,
      require_basic_auth_steps (some c) = require_basic_auth_steps (some c2)) := by
  refine ⟨fun a a2 b => by rw [compare_digest_steps_eq, compare_digest_steps_eq],
    compare_digest_iff, fun c c2 => ?_⟩
  simp [require_basic_auth_steps, compare_digest_steps_eq]

/-- C4 (counterexample): a protected handler does not receive a Principal —
the success value the authentication dependency injects into it is the raw
presented credential material: `require_basic_auth` returns the full
username/password pair, which `run_op` passes straight into `create_depot`,
and `require_bearer_token` returns the raw bearer token. -/
theorem handlers_receive_raw_credentials :
    require_basic_auth (some ⟨"admin", "admin-password"⟩) =
      .ok ⟨"admin", "admin-password"⟩ ∧
    (run_op route_store
        (.createDepot ⟨"North Depot", "Helsinki", 10⟩
          (some ⟨"admin", "admin-password"⟩))).2 =
      .depot (create_depot ⟨"North Depot", "Helsinki", 10⟩
        ⟨"admin", "admin-password"⟩) ∧
    require_bearer_token (some ⟨"Bearer", "demo-bearer-token"⟩) =
      .ok "demo-bearer-token" :=
  ⟨rfl, rfl, rfl⟩

/-- C4 (amended): the handlers receive the verified raw credential value only
as an ignored parameter: every protected handler's output is invariant under
changing that credential argument, so no response depends on or contains the
presented credential material. -/
theorem handler_outputs_independent_of_credentials :
    (∀ (p : CreateDepotIn) (c c2 : HTTPBasicCredentials),
      create_depot p c = create_depot p c2) ∧
    (∀ t t2 : String, bearer_profile t = bearer_profile t2) ∧
    (∀ (t t2 : String) (s : List (String × RouteOut)),
      header_key_metrics t s = header_key_metrics t2 s) ∧
    (∀ t t2 : String, cookie_incidents t = cookie_incidents t2) ∧
    (∀ t t2 : String, oauth_profile t = oauth_profile t2) ∧
    (∀ (p : DispatchIn) (t t2 : String), create_dispatch p t = create_dispatch p t2) :=
  ⟨fun _ _ _ => rfl, fun _ _ => rfl, fun _ _ _ => rfl, fun _ _ => rfl,
    fun _ _ => rfl, fun _ _ _ => rfl⟩

/-! Failure-shape lemmas: the exceptions each scheme can raise. -/

theorem require_basic_auth_error_shape {c : Option HTTPBasicCredentials}
    {e : HTTPException} (h : require_basic_auth c = .error e) :
    e.statusCode = 401 ∧ e.headers = [("WWW-Authenticate", "Basic")] := by
  cases c with
  | none =>
    simp only [require_basic_auth] at h
    injection h with h2
    subst h2
    exact ⟨rfl, rfl⟩
  | some cc =>
    simp only [require_basic_auth] at h
    split at h
    · injection h with h2
      subst h2
      exact ⟨rfl, rfl⟩
    · exact Except.noConfusion h

theorem require_bearer_token_error_shape {c : Option HTTPAuthorizationCredentials}
    {e : HTTPException} (h : require_bearer_token c = .error e) :
    e.statusCode = 401 ∧ e.headers = [("WWW-Authenticate", "Bearer")] := by
  cases c with
  | none =>
    simp only [require_bearer_token] at h
    injection h with h2
    subst h2
    exact ⟨rfl, rfl⟩
  | some cc =>
    simp only [require_bearer_token] at h
    split at h
    · injection h with h2
      subst h2
      exact ⟨rfl, rfl⟩
    · split at h
      · injection h with h2
        subst h2
        exact ⟨rfl, rfl⟩
      · exact Except.noConfusion h

theorem require_api_key_header_error_shape {k : Option String}
    {e : HTTPException} (h : require_api_key_header k = .error e) :
    e.statusCode = 403 ∧ e.headers = [] := by
  cases k with
  | none =>
    simp only [require_api_key_header] at h
    injection h with h2
    subst h2
    exact ⟨rfl, rfl⟩
  | some kk =>
    simp only [require_api_key_header] at h
    split at h
    · injection h with h2
      subst h2
      exact ⟨rfl, rfl⟩
    · exact Except.noConfusion h

theorem require_session_cookie_error_shape {k : Option String}
    {e : HTTPException} (h : require_session_cookie k = .error e) :
    e.statusCode = 403 ∧ e.headers = [] := by
  cases k with
  | none =>
    simp only [require_session_cookie] at h
    injection h with h2
    subst h2
    exact ⟨rfl, rfl⟩
  | some kk =>
    simp only [require_session_cookie] at h
    split at h
    · injection h with h2
      subst h2
      exact ⟨rfl, rfl⟩
    · exact Except.noConfusion h

theorem require_oauth2_token_error_shape {t : String} {e : HTTPException}
    (h : require_oauth2_token t = .error e) :
    e.statusCode = 401 ∧ e.headers = [("WWW-Authenticate", "Bearer")] := by
  simp only [require_oauth2_token] at h
  split at h
  · injection h with h2
    subst h2
    exact ⟨rfl, rfl⟩
  · exact Except.noConfusion h

theorem oauth2_password_extract_error_shape {req : Request} {e : HTTPException}
    (h : oauth2_password_extract req = .error e) :
    e.statusCode = 401 ∧ e.headers = [("WWW-Authenticate", "Bearer")] := by
  simp only [oauth2_password_extract] at h
  split at h
  · injection h with h2
    subst h2
    exact ⟨rfl, rfl⟩
  · exact Except.noConfusion h

theorem hybridApiKeyStep_error {x : Option String} {e : HTTPException}
    (h : hybridApiKeyStep x = .error e) :
    e = ⟨401, "Provide a valid bearer token or x-api-key header.",
      [("WWW-Authenticate", "Bearer")]⟩ := by
  cases x with
  | none =>
    simp only [hybridApiKeyStep] at h
    injection h with h2
    exact h2.symm
  | some k =>
    simp only [hybridApiKeyStep] at h
    split at h
    · exact Except.noConfusion h
    · injection h with h2
      exact h2.symm

/-- C2: whenever a scheme strategy fails — whether the credential was missing
or present but invalid — Basic fails 401 with a "Basic" WWW-Authenticate
challenge, Bearer and OAuth2Password fail 401 with a "Bearer" challenge, and
the ApiKeyHeader and ApiKeyCookie strategies fail 403 with no challenge
header at all. -/
theorem scheme_failure_challenge_mapping
    (decode : String → Option String) (req : Request) (e : HTTPException) :
    (basic_strategy decode req = .error e →
      e.statusCode = 401 ∧ e.headers = [("WWW-Authenticate", "Basic")]) ∧
    (bearer_strategy req = .error e →
      e.statusCode = 401 ∧ e.headers = [("WWW-Authenticate", "Bearer")]) ∧
    (oauth2_password_strategy req = .error e →
      e.statusCode = 401 ∧ e.headers = [("WWW-Authenticate", "Bearer")]) ∧
    (api_key_header_strategy req = .error e →
      e.statusCode = 403 ∧ e.headers = []) ∧
    (session_cookie_strategy req = .error e →
      e.statusCode = 403 ∧ e.headers = []) := by
  refine ⟨fun h => require_basic_auth_error_shape h,
    fun h => require_bearer_token_error_shape h,
    fun h => ?_,
    fun h => require_api_key_header_error_shape h,
    fun h => require_session_cookie_error_shape h⟩
  simp only [oauth2_password_strategy] at h
  cases hx : oauth2_password_extract req with
  | error e1 =>
    rw [hx] at h
    simp only [Except.bind] at h
    injection h with h2
    subst h2
    exact oauth2_password_extract_error_shape hx
  | ok t =>
    rw [hx] at h
    simp only [Except.bind] at h
    exact require_oauth2_token_error_shape h

/-- C2 witness: concrete failures of each strategy on the empty request with
a decoder that accepts nothing. -/
theorem scheme_failure_challenge_mapping_witness :
    ((⟨401, "Missing basic authentication credentials.",
        [("WWW-Authenticate", "Basic")]⟩ : HTTPException).statusCode = 401 ∧
      (⟨401, "Missing basic authentication credentials.",
        [("WWW-Authenticate", "Basic")]⟩ : HTTPException).headers =
        [("WWW-Authenticate", "Basic")]) ∧
    ((⟨401, "Missing bearer token.",
        [("WWW-Authenticate", "Bearer")]⟩ : HTTPException).statusCode = 401 ∧
      (⟨401, "Missing bearer token.",
        [("WWW-Authenticate", "Bearer")]⟩ : HTTPException).headers =
        [("WWW-Authenticate", "Bearer")]) ∧
    ((⟨401, "Not authenticated",
        [("WWW-Authenticate", "Bearer")]⟩ : HTTPException).statusCode = 401 ∧
      (⟨401, "Not authenticated",
        [("WWW-Authenticate", "Bearer")]⟩ : HTTPException).headers =
        [("WWW-Authenticate", "Bearer")]) ∧
    ((⟨403, "Missing x-api-key header.", []⟩ : HTTPException).statusCode = 403 ∧
      (⟨403, "Missing x-api-key header.", []⟩ : HTTPException).headers = []) ∧
    ((⟨403, "Missing session_token cookie.", []⟩ : HTTPException).statusCode = 403 ∧
      (⟨403, "Missing session_token cookie.", []⟩ : HTTPException).headers = []) :=
  ⟨(scheme_failure_challenge_mapping (fun _ => none) ⟨none, none, none⟩ _).1 rfl,
    (scheme_failure_challenge_mapping (fun _ => none) ⟨none, none, none⟩ _).2.1 rfl,
    (scheme_failure_challenge_mapping (fun _ => none) ⟨none, none, none⟩ _).2.2.1 rfl,
    (scheme_failure_challenge_mapping (fun _ => none) ⟨none, none, none⟩ _).2.2.2.1 rfl,
    (scheme_failure_challenge_mapping (fun _ => none) ⟨none, none, none⟩ _).2.2.2.2 rfl⟩

/-- C6: whenever the hybrid combinator fails — no matter which of its schemes
were attempted or why they failed — it produces exactly one aggregated
failure: status 401 carrying Bearer's `WWW-Authenticate: Bearer` challenge. -/
theorem hybrid_failure_single_aggregated_challenge (req : Request)
    (e : HTTPException) (h : hybrid_strategy req = .error e) :
    e = ⟨401, "Provide a valid bearer token or x-api-key header.",
      [("WWW-Authenticate", "Bearer")]⟩ ∧
    e.statusCode = 401 ∧ e.headers = [("WWW-Authenticate", "Bearer")] := by
  have hx : e = ⟨401, "Provide a valid bearer token or x-api-key header.",
      [("WWW-Authenticate", "Bearer")]⟩ := by
    simp only [hybrid_strategy] at h
    cases hcr : http_bearer_extract req with
    | none =>
      rw [hcr] at h
      simp only [require_bearer_or_api_key] at h
      exact hybridApiKeyStep_error h
    | some cr =>
      rw [hcr] at h
      simp only [require_bearer_or_api_key] at h
      split at h
      · exact Except.noConfusion h
      · exact hybridApiKeyStep_error h
  exact ⟨hx, by rw [hx], by rw [hx]⟩

/-- C6 witness: the hybrid combinator on the empty request fails with the
single aggregated Bearer-challenge failure. -/
theorem hybrid_failure_witness :
    (⟨401, "Provide a valid bearer token or x-api-key header.",
        [("WWW-Authenticate", "Bearer")]⟩ : HTTPException) =
      ⟨401, "Provide a valid bearer token or x-api-key header.",
        [("WWW-Authenticate", "Bearer")]⟩ ∧
    (⟨401, "Provide a valid bearer token or x-api-key header.",
        [("WWW-Authenticate", "Bearer")]⟩ : HTTPException).statusCode = 401 ∧
    (⟨401, "Provide a valid bearer token or x-api-key header.",
        [("WWW-Authenticate", "Bearer")]⟩ : HTTPException).headers =
      [("WWW-Authenticate", "Bearer")] :=
  hybrid_failure_single_aggregated_challenge ⟨none, none, none⟩ _ rfl

theorem http_bearer_extract_append {s : String} (t : String) (k c : Option String)
    (hs : str_lower s = "bearer") (ht : t ≠ "") :
    http_bearer_extract ⟨some (s ++ " " ++ t), k, c⟩ = some ⟨s, t⟩ := by
  have hsp : ' ' ∉ s.data := no_space_of_str_lower hs (by decide)
  have h1 := get_scheme_param_append s t hsp
  have hsne : s ≠ "" := str_lower_ne_empty hs (by decide)
  simp only [http_bearer_extract, h1]
  rw [hs]
  simp [append_space_ne_empty s t, hsne, ht]

/-- C5: a request with no Authorization header makes both the Basic and the
Bearer strategies fail with the Missing-reason failure (never the
Invalid-reason one), and a request whose Authorization header carries the
Basic scheme with a malformed (undecodable) parameter is also treated as
Missing, not Invalid; the two reasons are observably distinct details. -/
theorem missing_and_malformed_are_missing_reason :
    (∀ (decode : String → Option String) (k c : Option String),
      basic_strategy decode ⟨none, k, c⟩ =
        .error ⟨401, "Missing basic authentication credentials.",
          [("WWW-Authenticate", "Basic")]⟩ ∧
      bearer_strategy ⟨none, k, c⟩ =
        .error ⟨401, "Missing bearer token.", [("WWW-Authenticate", "Bearer")]⟩) ∧
    (∀ (decode : String → Option String) (s p : String) (k c : Option String),
      str_lower s = "basic" → decode p = none →
      basic_strategy decode ⟨some (s ++ " " ++ p), k, c⟩ =
        .error ⟨401, "Missing basic authentication credentials.",
          [("WWW-Authenticate", "Basic")]⟩) ∧
    (("Missing basic authentication credentials." : String) ≠
        "Invalid basic authentication credentials." ∧
      ("Missing bearer token." : String) ≠ "Invalid bearer token.") := by
  refine ⟨fun decode k c => ⟨rfl, rfl⟩, ?_, by decide, by decide⟩
  intro decode s p k c hs hd
  have hsp : ' ' ∉ s.data := no_space_of_str_lower hs (by decide)
  have h1 := get_scheme_param_append s p hsp
  have hext : http_basic_extract decode ⟨some (s ++ " " ++ p), k, c⟩ = none := by
    simp only [http_basic_extract, h1]
    rw [hs]
    simp [append_space_ne_empty s p, hd]
  simp only [basic_strategy, hext]
  rfl

/-- C5 witness: a Basic-schemed header whose parameter no decoder accepts is
reported as Missing. -/
theorem missing_reason_witness :
    basic_strategy (fun _ => none)
      ⟨some ("Basic" ++ " " ++ "not-base64"), none, none⟩ =
      .error ⟨401, "Missing basic authentication credentials.",
        [("WWW-Authenticate", "Basic")]⟩ :=
  missing_and_malformed_are_missing_reason.2.1 (fun _ => none) "Basic"
    "not-base64" none none (by decide) rfl

/-- C8: the Bearer strategy accepts any casing of the scheme token "bearer"
(extraction succeeds for every string whose lowercasing is "bearer"), while
the token value is matched exactly: the trusted token is accepted and every
other non-empty token value is rejected as Invalid. -/
theorem bearer_scheme_case_insensitive_token_exact :
    (∀ (s t : String) (k c : Option String), str_lower s = "bearer" → t ≠ "" →
      http_bearer_extract ⟨some (s ++ " " ++ t), k, c⟩ = some ⟨s, t⟩) ∧
    (∀ (s : String) (k c : Option String), str_lower s = "bearer" →
      bearer_strategy ⟨some (s ++ " " ++ DEMO_BEARER_TOKEN), k, c⟩ =
        .ok DEMO_BEARER_TOKEN) ∧
    (∀ (s t : String) (k c : Option String), str_lower s = "bearer" → t ≠ "" →
      t ≠ DEMO_BEARER_TOKEN →
      bearer_strategy ⟨some (s ++ " " ++ t), k, c⟩ =
        .error ⟨401, "Invalid bearer token.", [("WWW-Authenticate", "Bearer")]⟩) := by
  refine ⟨fun s t k c hs ht => http_bearer_extract_append t k c hs ht, ?_, ?_⟩
  · intro s k c hs
    simp only [bearer_strategy,
      http_bearer_extract_append DEMO_BEARER_TOKEN k c hs (by decide)]
    simp only [require_bearer_token]
    rw [hs]
    simp [compare_digest_self]
  · intro s t k c hs ht hneq
    simp only [bearer_strategy, http_bearer_extract_append t k c hs ht]
    simp only [require_bearer_token]
    rw [hs]
    simp [compare_digest_eq_false hneq]

/-- C8 witness: "BEARER" and "bearer" casings are accepted, and a wrong token
value under the canonical casing is rejected as Invalid. -/
theorem bearer_case_insensitive_witness :
    http_bearer_extract ⟨some ("BEARER" ++ " " ++ DEMO_BEARER_TOKEN), none, none⟩ =
      some ⟨"BEARER", DEMO_BEARER_TOKEN⟩ ∧
    bearer_strategy ⟨some ("bearer" ++ " " ++ DEMO_BEARER_TOKEN), none, none⟩ =
      .ok DEMO_BEARER_TOKEN ∧
    bearer_strategy ⟨some ("Bearer" ++ " " ++ "wrong-token"), none, none⟩ =
      .error ⟨401, "Invalid bearer token.", [("WWW-Authenticate", "Bearer")]⟩ :=
  ⟨bearer_scheme_case_insensitive_token_exact.1 "BEARER" DEMO_BEARER_TOKEN none none
      (by decide) (by decide),
    bearer_scheme_case_insensitive_token_exact.2.1 "bearer" none none (by decide),
    bearer_scheme_case_insensitive_token_exact.2.2 "Bearer" "wrong-token" none none
      (by decide) (by decide) (by decide)⟩

/-- C1: the hybrid combinator tries Bearer first — a request carrying a valid
bearer token authenticates as "bearer" whatever the x-api-key header holds
(the api key is never consulted for the verdict); and a request whose bearer
credential is absent or carries an invalid token value, but whose x-api-key
header equals the trusted key, authenticates as "api_key_header". -/
theorem hybrid_first_match_wins :
    (∀ (s : String) (k c : Option String), str_lower s = "bearer" →
      hybrid_strategy ⟨some (s ++ " " ++ DEMO_BEARER_TOKEN), k, c⟩ = .ok "bearer") ∧
    (∀ req : Request,
      (∀ cr, http_bearer_extract req = some cr →
        compare_digest cr.credentials DEMO_BEARER_TOKEN = false) →
      req.xApiKey = some DEMO_HEADER_API_KEY →
      hybrid_strategy req = .ok "api_key_header") := by
  constructor
  · intro s k c hs
    simp only [hybrid_strategy,
      http_bearer_extract_append DEMO_BEARER_TOKEN k c hs (by decide)]
    simp only [require_bearer_or_api_key]
    rw [hs]
    simp [compare_digest_self]
  · intro req hfail hx
    have hunf : api_key_header_extract req =
        match req.xApiKey with
        | none => none
        | some k => if k == "" then none else some k := rfl
    have hkey : api_key_header_extract req = some DEMO_HEADER_API_KEY := by
      rw [hunf, hx]
      rfl
    simp only [hybrid_strategy]
    cases hcr : http_bearer_extract req with
    | none =>
      rw [hkey]
      rfl
    | some cr =>
      rw [hkey]
      simp only [require_bearer_or_api_key, hfail cr hcr, Bool.and_false]
      rfl

/-- C1 witness: with both a valid bearer token and a valid api key the hybrid
verdict is "bearer"; with no bearer credential and a valid api key it is
"api_key_header". -/
theorem hybrid_first_match_wins_witness :
    hybrid_strategy ⟨some ("Bearer" ++ " " ++ DEMO_BEARER_TOKEN),
      some DEMO_HEADER_API_KEY, none⟩ = .ok "bearer" ∧
    hybrid_strategy ⟨none, some DEMO_HEADER_API_KEY, none⟩ = .ok "api_key_header" :=
  ⟨hybrid_first_match_wins.1 "Bearer" (some DEMO_HEADER_API_KEY) none (by decide),
    hybrid_first_match_wins.2 ⟨none, some DEMO_HEADER_API_KEY, none⟩
      (fun cr h => Option.noConfusion h) rfl⟩

/-- C7: posting the correct OAuth username/password to the token endpoint
returns the issued token with token_type "bearer"; that exact token is
accepted by the OAuth2Password verifier and every other token string is
rejected as Invalid with status 401; posting a wrong username or password
returns 401 and no token. -/
theorem oauth2_issuance_round_trip :
    oauth_token ⟨DEMO_OAUTH_USERNAME, DEMO_OAUTH_PASSWORD⟩ =
      .ok ⟨DEMO_OAUTH_TOKEN, "bearer"⟩ ∧
    (∀ u p : String, u ≠ DEMO_OAUTH_USERNAME ∨ p ≠ DEMO_OAUTH_PASSWORD →
      oauth_token ⟨u, p⟩ = .error ⟨401, "Invalid OAuth username/password.", []⟩) ∧
    require_oauth2_token DEMO_OAUTH_TOKEN = .ok DEMO_OAUTH_TOKEN ∧
    (∀ t : String, t ≠ DEMO_OAUTH_TOKEN →
      require_oauth2_token t =
        .error ⟨401, "Invalid OAuth2 access token.",
          [("WWW-Authenticate", "Bearer")]⟩) := by
  refine ⟨rfl, ?_, rfl, ?_⟩
  · intro u p h
    simp only [oauth_token]
    rw [if_pos h]
  · intro t ht
    simp only [require_oauth2_token, compare_digest_eq_false ht]
    rfl

/-- C7 witness: a wrong password is refused a token, and a wrong token string
is rejected as Invalid. -/
theorem oauth2_round_trip_witness :
    oauth_token ⟨DEMO_OAUTH_USERNAME, "wrong-password"⟩ =
      .error ⟨401, "Invalid OAuth username/password.", []⟩ ∧
    require_oauth2_token "wrong-token" =
      .error ⟨401, "Invalid OAuth2 access token.",
        [("WWW-Authenticate", "Bearer")]⟩ :=
  ⟨oauth2_issuance_round_trip.2.1 DEMO_OAUTH_USERNAME "wrong-password"
      (Or.inr (by decide)),
    oauth2_issuance_round_trip.2.2.2 "wrong-token" (by decide)⟩

/-- C9: the session-login exchange accepts exactly the username/password pair
of the Basic scheme's trust entry (its success coincides with
`require_basic_auth`'s on the same pair); every successful login sets the
session_token cookie to the fixed `DEMO_SESSION_TOKEN`, which is exactly the
value the ApiKeyCookie verifier accepts (every other cookie value is
rejected); a failed login returns 401 and, by its result type, sets no
cookie. -/
theorem session_login_matches_basic_and_cookie_verifier :
    (∀ u p : String,
      exceptIsOk (session_login ⟨u, p⟩) =
        exceptIsOk (require_basic_auth (some ⟨u, p⟩))) ∧
    (∀ (u p : String) (out : SessionLoginOut × SetCookie),
      session_login ⟨u, p⟩ = .ok out →
      out.2 = ⟨"session_token", DEMO_SESSION_TOKEN, true, "lax"⟩ ∧
      require_session_cookie (some out.2.value) = .ok DEMO_SESSION_TOKEN) ∧
    (∀ v : String, v ≠ DEMO_SESSION_TOKEN →
      require_session_cookie (some v) =
        .error ⟨403, "Invalid session_token cookie.", []⟩) ∧
    (∀ u p : String, u ≠ DEMO_BASIC_USERNAME ∨ p ≠ DEMO_BASIC_PASSWORD →
      session_login ⟨u, p⟩ = .error ⟨401, "Invalid credentials.", []⟩) := by
  refine ⟨?_, ?_, ?_, ?_⟩
  · intro u p
    by_cases hu : u = DEMO_BASIC_USERNAME
    · by_cases hp : p = DEMO_BASIC_PASSWORD
      · subst hu
        subst hp
        rfl
      · subst hu
        simp [session_login, require_basic_auth, hp, compare_digest_self,
          compare_digest_eq_false hp, exceptIsOk]
    · simp [session_login, require_basic_auth, hu,
        compare_digest_eq_false hu, exceptIsOk]
  · intro u p out h
    simp only [session_login] at h
    split at h
    · exact Except.noConfusion h
    · injection h with h2
      subst h2
      exact ⟨rfl, rfl⟩
  · intro v hv
    simp only [require_session_cookie, compare_digest_eq_false hv]
    rfl
  · intro u p h
    simp only [session_login]
    rw [if_pos h]

/-- C9 witness: the issued cookie value passes the cookie verifier, a wrong
cookie value fails it, and a wrong login is refused. -/
theorem session_login_witness :
    require_session_cookie (some DEMO_SESSION_TOKEN) = .ok DEMO_SESSION_TOKEN ∧
    require_session_cookie (some "wrong-cookie") =
      .error ⟨403, "Invalid session_token cookie.", []⟩ ∧
    session_login ⟨"admin", "wrong-password"⟩ =
      .error ⟨401, "Invalid credentials.", []⟩ :=
  ⟨(session_login_matches_basic_and_cookie_verifier.2.1 "admin" "admin-password"
      (⟨"Session cookie issued."⟩,
        ⟨"session_token", DEMO_SESSION_TOKEN, true, "lax"⟩) rfl).2,
    session_login_matches_basic_and_cookie_verifier.2.2.1 "wrong-cookie" (by decide),
    session_login_matches_basic_and_cookie_verifier.2.2.2 "admin" "wrong-password"
      (Or.inr (by decide))⟩

/-- C10: no operation mutates the module-level route store — every handler
returns it unchanged, so after any sequence of requests the store still holds
exactly its two startup entries; the depot and dispatch handlers build fresh
responses with the fixed identifiers "depot-1" and "dispatch-1" derived only
from the request payload. -/
theorem route_store_never_mutated :
    (∀ (store : List (String × RouteOut)) (op : Op), (run_op store op).1 = store) ∧
    (∀ (store : List (String × RouteOut)) (ops : List Op),
      run_ops store ops = store) ∧
    (∀ ops : List Op, run_ops route_store ops = route_store) ∧
    (∀ (p : CreateDepotIn) (c : HTTPBasicCredentials),
      create_depot p c = ⟨"depot-1", p.name, p.city, p.max_vehicles⟩) ∧
    (∀ (p : DispatchIn) (t : String),
      create_dispatch p t =
        ⟨"dispatch-1", p.vehicle_id, p.route_id, p.departs_at, "scheduled"⟩) := by
  have h1 : ∀ (store : List (String × RouteOut)) (op : Op),
      (run_op store op).1 = store := by
    intro store op
    cases op <;> rfl
  have h2 : ∀ (store : List (String × RouteOut)) (ops : List Op),
      run_ops store ops = store := by
    intro store ops
    induction ops generalizing store with
    | nil => rfl
    | cons op rest ih =>
      show run_ops (run_op store op).1 rest = store
      rw [h1 store op]
      exact ih store
  exact ⟨h1, h2, fun ops => h2 route_store ops, fun p c => rfl, fun p t => rfl⟩
